import Mathlib

/-!
Verification of the `app package` CLI fragment (packaging an application
manifest into a CloudFormation template) against its specification.

The embedding follows `internal/pkg/cli/app_package.go` and the
`cloudformation` LBFargate stack configuration that ships with it.
Third-party collaborators (the environment store, the workspace, the
bundled template box, the text/template engine, the file system and the
output sinks) are modelled as an explicit `World` of oracles, and the
functions under verification are transcribed over that world.  Machine
strings are modelled as Lean `String`s (sequences of characters).
-/

namespace AppPackage

/-- Errors.  Go errors are modelled as a small inductive: a bare message
(`errors.New` / `fmt.Errorf` without `%w`), a wrapping of an inner error
with a context string (`fmt.Errorf("...: %w", err)`), the distinguished
`errNoProjectInWorkspace` value, and the `ErrTemplateNotFound` structured
error of the cloudformation package. -/
inductive Err where
  | noProjectInWorkspace : Err
  | msg (s : String) : Err
  | wrapped (ctx : String) (e : Err) : Err
  | templateNotFound (templateLocation : String) (parentErr : Err) : Err
  deriving DecidableEq, Repr

/-- An output sink for the rendered documents: standard output,
`ioutil.Discard`, or a created file (identified by its path). -/
inductive Sink where
  | stdout : Sink
  | discard : Sink
  | file (path : String) : Sink
  deriving DecidableEq, Repr

/-- `archer.Environment`: project name, environment name, account id and
region of a deployment environment. -/
structure Environment where
  Project : String
  Name : String
  AccountID : String
  Region : String
  deriving DecidableEq, Repr

/-- The part of `manifest.AppManifest` used by this fragment: the
application's name and its manifest type discriminator (the Go field is
called `Type`, a reserved word here). -/
structure AppManifest where
  Name : String
  Type' : String
  deriving DecidableEq, Repr

/-- Alias used for fields that carry the name of their own type (Go
embedded fields). -/
abbrev AppManifestT := AppManifest

/-- The container image settings of an LBFargate configuration (only the
port is read by this fragment). -/
structure ImageConfig where
  Port : Nat
  deriving DecidableEq, Repr

/-- The load-balanced Fargate configuration block: image, routing path,
CPU/memory reservation and desired task count. -/
structure LBFargateConfig where
  Image : ImageConfig
  Path : String
  CPU : Nat
  Memory : Nat
  Count : Nat
  deriving DecidableEq, Repr

/-- Alias, see `AppManifestT`. -/
abbrev LBFargateConfigT := LBFargateConfig

/-- `manifest.LBFargateManifest`: the common app manifest fields, a base
LBFargate configuration, and per-environment configuration overrides
(the manifest type lives outside this fragment; the override table is
modelled from the spec attribute "per-environment configuration
overrides", keyed by environment name). -/
structure LBFargateManifest where
  AppManifest : AppManifestT
  LBFargateConfig : LBFargateConfigT
  Environments : List (String × LBFargateConfigT)
  deriving DecidableEq, Repr

/-- Modelled from the spec: `EnvConf` of the manifest package is not part
of the source fragment.  Per §4.2 it "resolves the manifest's
environment-specific overrides by looking up configuration keyed by the
environment name; if no override exists, the manifest's base
configuration applies unchanged". -/
def EnvConf (m : LBFargateManifest) (envName : String) : LBFargateConfig :=
  match m.Environments.lookup envName with
  | some conf => conf
  | none => m.LBFargateConfig

/-- The decoded result of `manifest.UnmarshalApp`.  Modelled from the
spec: the decoder ("§4.1 Manifest Decoder") classifies the serialized
manifest by a discriminator and produces the matching typed variant; the
only variant known to this fragment is the load-balanced Fargate
manifest, every other variant is carried abstractly with its type name
(the string `%T` would print for it). -/
inductive AppVariant where
  | lbFargate (m : LBFargateManifest) : AppVariant
  | unknown (typeName : String) : AppVariant
  deriving DecidableEq, Repr

/-- `deploy.CreateLBFargateAppInput` flattened into the stack
configuration (`LBFargateStackConfig` embeds it; the template `box` is
part of the `World`). -/
structure LBFargateStackConfig where
  App : LBFargateManifest
  Env : Environment
  ImageTag : String
  deriving DecidableEq, Repr

/-- The fields of `PackageAppOpts` that carry semantics in this fragment
(collaborator interfaces live in the `World`; `projectName` comes from
the embedded `globalOpts`). -/
structure PackageAppOpts where
  AppName : String
  EnvName : String
  Tag : String
  OutputDir : String
  templateWriter : Sink
  paramsWriter : Sink
  projectName : String
  deriving DecidableEq, Repr

/-- The overridden image field of `lbFargateTemplateParams`: the
fully-qualified image URL and the container port. -/
structure ImageURLPort where
  URL : String
  Port : Nat
  deriving DecidableEq, Repr

/-- `lbFargateTemplateParams`: the data handed to the template engine —
the (environment-resolved) application manifest, the environment, the
routing-rule priority, and the overridden image field. -/
structure lbFargateTemplateParams where
  App : LBFargateManifest
  Env : Environment
  Priority : Nat
  Image : ImageURLPort
  deriving DecidableEq, Repr

/-- The external collaborators of one packaging run: the environment
store, the workspace, the manifest decoder, the bundled template box,
the text/template engine (parsed templates are represented opaquely by a
`String`), the file system, and the sinks' write operation.  An `Option
Err` result is `none` on success. -/
structure World where
  getEnvironment : String → String → Except Err Environment
  appNames : Except Err (List String)
  manifestFileName : String → String
  readManifestFile : String → Except Err String
  unmarshalApp : String → Except Err AppVariant
  findString : String → Except Err String
  parse : String → Except Err String
  templateExecute : String → lbFargateTemplateParams → Except Err String
  mkdirAll : String → Option Err
  create : String → Except Err Unit
  write : Sink → String → Option Err

/-- `lbFargateAppTemplatePath`: the name of the stack template in the box. -/
def lbFargateAppTemplatePath : String := "lb-fargate-service/cf.yml"

/-- `lbFargateAppParamsPath`: the name of the parameter-document template. -/
def lbFargateAppParamsPath : String := "lb-fargate-service/params.json"

/-- `lbFargateParamProjectNameKey`. -/
def lbFargateParamProjectNameKey : String := "ProjectName"

/-- `lbFargateParamEnvNameKey`. -/
def lbFargateParamEnvNameKey : String := "EnvName"

/-- `lbFargateParamAppNameKey`. -/
def lbFargateParamAppNameKey : String := "AppName"

/-- `lbFargateParamContainerImageKey`. -/
def lbFargateParamContainerImageKey : String := "ContainerImage"

/-- `lbFargateParamContainerPortKey`. -/
def lbFargateParamContainerPortKey : String := "ContainerPort"

/-- `lbFargateRulePriorityKey`. -/
def lbFargateRulePriorityKey : String := "RulePriority"

/-- `lbFargateRulePathKey`. -/
def lbFargateRulePathKey : String := "RulePath"

/-- `lbFargateTaskCPUKey`. -/
def lbFargateTaskCPUKey : String := "TaskCPU"

/-- `lbFargateTaskMemoryKey`. -/
def lbFargateTaskMemoryKey : String := "TaskMemory"

/-- `lbFargateTaskCountKey`. -/
def lbFargateTaskCountKey : String := "TaskCount"

/-- Modelled from the spec: the constant `ecrURLFormatString` is defined
outside this fragment.  The spec's §8 scenario fixes its shape: account
`123`, region `us-east-1` and location `demo/test/frontend:latest` give
`123.dkr.ecr.us-east-1.amazonaws.com/demo/test/frontend:latest`, i.e.
the format substitutes account id, region and image location into
an ECR registry host template. -/
def ecrURLFormatString (accountID region imgLoc : String) : String :=
  accountID ++ ".dkr.ecr." ++ region ++ ".amazonaws.com/" ++ imgLoc

/-- Modelled from the spec: the stack tag key constants (`projectTagKey`)
live outside this fragment; per §4.3 "tag keys are (project,
environment, application)". -/
def projectTagKey : String := "project"

/-- Modelled from the spec: see `projectTagKey`. -/
def envTagKey : String := "environment"

/-- Modelled from the spec: see `projectTagKey`. -/
def appTagKey : String := "application"

/-- `toTemplateParams`: computes the image location
`project/environment/appName:tag`, composes the registry URL via the
format constant, resolves the environment-specific app configuration,
and fixes the routing-rule priority to the placeholder `1`. -/
def toTemplateParams (c : LBFargateStackConfig) : lbFargateTemplateParams :=
  let imgLoc :=
    c.Env.Project ++ "/" ++ c.Env.Name ++ "/" ++ c.App.AppManifest.Name ++ ":" ++ c.ImageTag
  let url := ecrURLFormatString c.Env.AccountID c.Env.Region imgLoc
  { App :=
      { AppManifest := c.App.AppManifest
        LBFargateConfig := EnvConf c.App c.Env.Name
        Environments := [] }
    Env := c.Env
    Priority := 1
    Image := { URL := url, Port := c.App.LBFargateConfig.Image.Port } }

/-- `StackName`: `project-environment-appName-app`, truncated from the
left to the CloudFormation limit of 128 characters. -/
def StackName (c : LBFargateStackConfig) : String :=
  let maxLen : Nat := 128
  let stackName := c.Env.Project ++ "-" ++ c.Env.Name ++ "-" ++ c.App.AppManifest.Name ++ "-app"
  if stackName.length > maxLen then
    stackName.drop (stackName.length - maxLen)
  else
    stackName

/-- `Template`: find the stack template in the box, parse it, and run it
over `toTemplateParams`; each failure aborts with an empty result string
and a contextualized error. -/
def Template (w : World) (c : LBFargateStackConfig) : String × Option Err :=
  match w.findString lbFargateAppTemplatePath with
  | .error e => ("", some (.templateNotFound lbFargateAppTemplatePath e))
  | .ok content =>
    match w.parse content with
    | .error e =>
      ("", some (.wrapped ("parse CloudFormation template for " ++ c.App.AppManifest.Type') e))
    | .ok tpl =>
      match w.templateExecute tpl (toTemplateParams c) with
      | .error e =>
        ("", some (.wrapped ("execute CloudFormation template for " ++ c.App.AppManifest.Type') e))
      | .ok out => (out, none)

/-- `SerializedParameters`: like `Template` but over the
parameter-document template. -/
def SerializedParameters (w : World) (c : LBFargateStackConfig) : String × Option Err :=
  match w.findString lbFargateAppParamsPath with
  | .error e => ("", some (.templateNotFound lbFargateAppParamsPath e))
  | .ok content =>
    match w.parse content with
    | .error e =>
      ("", some (.wrapped ("parse stack configuration for " ++ c.App.AppManifest.Type') e))
    | .ok tpl =>
      match w.templateExecute tpl (toTemplateParams c) with
      | .error e =>
        ("", some (.wrapped ("execute stack configuration for " ++ c.App.AppManifest.Type') e))
      | .ok out => (out, none)

/-- `Parameters`: the ordered key/value list of CloudFormation
parameters (`strconv.Itoa` becomes `toString` on the numeric fields). -/
def Parameters (c : LBFargateStackConfig) : List (String × String) :=
  let templateParams := toTemplateParams c
  [ (lbFargateParamProjectNameKey, templateParams.Env.Project),
    (lbFargateParamEnvNameKey, templateParams.Env.Name),
    (lbFargateParamAppNameKey, templateParams.App.AppManifest.Name),
    (lbFargateParamContainerImageKey, templateParams.Image.URL),
    (lbFargateParamContainerPortKey, toString templateParams.Image.Port),
    (lbFargateRulePriorityKey, toString templateParams.Priority),
    (lbFargateRulePathKey, templateParams.App.LBFargateConfig.Path),
    (lbFargateTaskCPUKey, toString templateParams.App.LBFargateConfig.CPU),
    (lbFargateTaskMemoryKey, toString templateParams.App.LBFargateConfig.Memory),
    (lbFargateTaskCountKey, toString templateParams.App.LBFargateConfig.Count) ]

/-- `Tags`: the (key, value) resource tags of the stack. -/
def Tags (c : LBFargateStackConfig) : List (String × String) :=
  [ (projectTagKey, c.Env.Project),
    (envTagKey, c.Env.Name),
    (appTagKey, c.App.AppManifest.Name) ]

/-- `contains`: linear membership scan over the name list. -/
def contains (s : String) : List String → Bool
  | [] => false
  | item :: items => if s == item then true else contains s items

/-- `filepath.Join` for the two-component joins used here. -/
def filepathJoin (dir name : String) : String := dir ++ "/" ++ name

/-- `getTemplates`: read and decode the application manifest, dispatch on
its variant, and render template and parameter document; the Go
three-valued return `(tpl, params, err)` is kept. -/
def getTemplates (w : World) (opts : PackageAppOpts) (env : Environment) :
    String × String × Option Err :=
  match w.readManifestFile (w.manifestFileName opts.AppName) with
  | .error e => ("", "", some e)
  | .ok raw =>
    match w.unmarshalApp raw with
    | .error e => ("", "", some e)
    | .ok (.lbFargate m) =>
      let stack : LBFargateStackConfig := { App := m, Env := env, ImageTag := opts.Tag }
      match Template w stack with
      | (_, some e) => ("", "", some e)
      | (tpl, none) =>
        let (params, err) := SerializedParameters w stack
        (tpl, params, err)
    | .ok (.unknown t) =>
      ("", "", some (.msg ("create CloudFormation template for manifest of type " ++ t)))

/-- `setFileWriters`: create the output directory, then the template file
and the params file, redirecting the two writers; the returned lists
record the directories and files actually created (also on a failing
run, for the frame theorems). -/
def setFileWriters (w : World) (opts : PackageAppOpts) :
    Option Err × PackageAppOpts × List String × List String :=
  match w.mkdirAll opts.OutputDir with
  | some e => (some (.wrapped ("create directory " ++ opts.OutputDir) e), opts, [], [])
  | none =>
    let templatePath := filepathJoin opts.OutputDir (opts.AppName ++ ".stack.yml")
    match w.create templatePath with
    | .error e =>
      (some (.wrapped ("create file " ++ templatePath) e), opts, [opts.OutputDir], [])
    | .ok _ =>
      let opts1 := { opts with templateWriter := .file templatePath }
      let paramsPath :=
        filepathJoin opts.OutputDir (opts.AppName ++ "-" ++ opts.EnvName ++ ".params.json")
      match w.create paramsPath with
      | .error e =>
        (some (.wrapped ("create file " ++ paramsPath) e), opts1,
          [opts.OutputDir], [templatePath])
      | .ok _ =>
        (none, { opts1 with paramsWriter := .file paramsPath },
          [opts.OutputDir], [templatePath, paramsPath])

/-- The observable outcome of one `Execute` call: the returned error, the
number of environment-store lookups performed, the directories and files
created, and the (sink, content) writes attempted in order. -/
structure ExecResult where
  err : Option Err
  envCalls : Nat
  dirsMade : List String
  filesCreated : List String
  writes : List (Sink × String)
  deriving DecidableEq, Repr

/-- `Execute`: resolve the environment, optionally redirect the writers
to files in the output directory, render both documents, write the
template, then write the parameter document. -/
def Execute (w : World) (opts : PackageAppOpts) : ExecResult :=
  match w.getEnvironment opts.projectName opts.EnvName with
  | .error e => ⟨some e, 1, [], [], []⟩
  | .ok env =>
    let (serr, opts', dirs, files) :=
      if opts.OutputDir ≠ "" then setFileWriters w opts else (none, opts, [], [])
    match serr with
    | some e => ⟨some e, 1, dirs, files, []⟩
    | none =>
      match getTemplates w opts' env with
      | (_, _, some e) => ⟨some e, 1, dirs, files, []⟩
      | (tpl, params, none) =>
        match w.write opts'.templateWriter tpl with
        | some e => ⟨some e, 1, dirs, files, [(opts'.templateWriter, tpl)]⟩
        | none =>
          ⟨w.write opts'.paramsWriter params, 1, dirs, files,
            [(opts'.templateWriter, tpl), (opts'.paramsWriter, params)]⟩

/-- `Validate`: reject an empty project, an explicitly supplied
application name absent from the workspace list, and a failing
environment lookup (whose error is returned unchanged).  The second
component counts the environment-store lookups performed. -/
def Validate (w : World) (opts : PackageAppOpts) : Option Err × Nat :=
  if opts.projectName = "" then
    (some .noProjectInWorkspace, 0)
  else
    let appCheck : Option Err :=
      if opts.AppName ≠ "" then
        match w.appNames with
        | .error e => some (.wrapped "list applications in workspace" e)
        | .ok names =>
          if !contains opts.AppName names then
            some (.msg ("application '" ++ opts.AppName ++ "' does not exist in the workspace"))
          else
            none
      else none
    match appCheck with
    | some e => (some e, 0)
    | none =>
      if opts.EnvName ≠ "" then
        match w.getEnvironment opts.projectName opts.EnvName with
        | .error e => (some e, 1)
        | .ok _ => (none, 1)
      else
        (none, 0)

/-- `NewPackageAppOpts`: the default options; the image tag is
`manual-{short git sha}` when git succeeds and `latest` otherwise, the
template goes to stdout and the parameters are discarded. -/
def NewPackageAppOpts (gitShortHead : Except Err String) (projectName : String) :
    PackageAppOpts :=
  match gitShortHead with
  | .error _ =>
    { AppName := "", EnvName := "", Tag := "latest", OutputDir := "",
      templateWriter := .stdout, paramsWriter := .discard, projectName := projectName }
  | .ok commitID =>
    { AppName := "", EnvName := "", Tag := "manual-" ++ commitID.trim, OutputDir := "",
      templateWriter := .stdout, paramsWriter := .discard, projectName := projectName }

/-- The `RunE` sequence restricted to the store-touching steps: `Validate`
followed (on success) by `Execute`; the second component totals the
environment-store lookups of the run. -/
def runPackage (w : World) (opts : PackageAppOpts) : Option Err × Nat :=
  match Validate w opts with
  | (some e, n) => (some e, n)
  | (none, n) =>
    let r := Execute w opts
    (r.err, n + r.envCalls)

/-! ### Concrete fixtures (the §8 scenario of the spec) -/

/-- The §8 scenario environment. -/
def exEnv : Environment :=
  { Project := "demo", Name := "test", AccountID := "123", Region := "us-east-1" }

/-- The §8 scenario manifest (`frontend`, port 80, cpu 256, memory 512,
count 1, no per-environment overrides). -/
def exManifest : LBFargateManifest :=
  { AppManifest := { Name := "frontend", Type' := "Load Balanced Web App" }
    LBFargateConfig :=
      { Image := { Port := 80 }, Path := "frontend", CPU := 256, Memory := 512, Count := 1 }
    Environments := [] }

/-- The §8 scenario stack input with tag `latest`. -/
def exStack : LBFargateStackConfig :=
  { App := exManifest, Env := exEnv, ImageTag := "latest" }

/-- A stack input whose natural stack name exceeds 128 characters. -/
def exLongStack : LBFargateStackConfig :=
  { App :=
      { AppManifest :=
          { Name := String.mk (List.replicate 100 'a'), Type' := "Load Balanced Web App" }
        LBFargateConfig := exManifest.LBFargateConfig
        Environments := [] }
    Env := { Project := String.mk (List.replicate 50 'p'), Name := "test",
             AccountID := "123", Region := "us-east-1" }
    ImageTag := "latest" }

/-- Default packaging options of the scenario (both names supplied, no
output directory, default sinks). -/
def exOpts : PackageAppOpts :=
  { AppName := "frontend", EnvName := "test", Tag := "latest", OutputDir := "",
    templateWriter := .stdout, paramsWriter := .discard, projectName := "demo" }

/-- A fully successful world: the store knows the scenario environment,
the workspace lists the `frontend` app, the manifest decodes to the
scenario LBFargate manifest, and the template engine renders both
documents. -/
def goodWorld : World :=
  { getEnvironment := fun _ _ => .ok exEnv
    appNames := .ok ["frontend"]
    manifestFileName := fun n => "ecs-project/" ++ n ++ "/manifest.yml"
    readManifestFile := fun _ => .ok "raw-manifest"
    unmarshalApp := fun _ => .ok (.lbFargate exManifest)
    findString := fun _ => .ok "template-source"
    parse := fun s => .ok s
    templateExecute := fun _ _ => .ok "rendered"
    mkdirAll := fun _ => none
    create := fun _ => .ok ()
    write := fun _ _ => none }

/-! ### Theorems -/

/-- Dropping `n` characters shortens a string by `n`. -/
theorem string_length_drop (s : String) (n : Nat) : (s.drop n).length = s.length - n := by
  rw [String.drop_eq]
  exact List.length_drop n s.data

/--
C1: For every manifest, environment record, and image tag,
`toTemplateParams` computes the container image location as
`{project}/{environment}/{appName}:{tag}` and composes the image URL by
substituting the environment's account id, the environment's region and
that location into the registry-URL format string; for manifest name
`frontend`, environment (demo, test, 123, us-east-1) and tag `latest`
the URL's path-and-tag part is `demo/test/frontend:latest`.
-/
theorem toTemplateParams_image_url (c : LBFargateStackConfig) :
    (toTemplateParams c).Image.URL =
      ecrURLFormatString c.Env.AccountID c.Env.Region
        (c.Env.Project ++ "/" ++ c.Env.Name ++ "/" ++ c.App.AppManifest.Name
          ++ ":" ++ c.ImageTag) ∧
    (toTemplateParams exStack).Image.URL =
      "123.dkr.ecr.us-east-1.amazonaws.com/" ++ "demo/test/frontend:latest" :=
  ⟨rfl, rfl⟩

/--
C9: For every manifest, environment record, and image tag, the
routing-rule priority assigned by `toTemplateParams` equals the fixed
placeholder constant `1`, independent of the path, the manifest and the
environment.
-/
theorem toTemplateParams_priority_constant (c : LBFargateStackConfig) :
    (toTemplateParams c).Priority = 1 :=
  rfl

/--
C2: For every environment record and manifest, `StackName` returns
`{project}-{environment}-{appName}-app` when that string has at most 128
characters, and otherwise exactly its last 128 characters; the result
never exceeds 128 characters (truncated, never an error).
-/
theorem StackName_length_spec (c : LBFargateStackConfig) :
    (StackName c).length ≤ 128 ∧
    ((c.Env.Project ++ "-" ++ c.Env.Name ++ "-" ++ c.App.AppManifest.Name ++ "-app").length ≤ 128 →
      StackName c = c.Env.Project ++ "-" ++ c.Env.Name ++ "-" ++ c.App.AppManifest.Name ++ "-app") ∧
    (128 < (c.Env.Project ++ "-" ++ c.Env.Name ++ "-" ++ c.App.AppManifest.Name ++ "-app").length →
      StackName c =
        (c.Env.Project ++ "-" ++ c.Env.Name ++ "-" ++ c.App.AppManifest.Name ++ "-app").drop
          ((c.Env.Project ++ "-" ++ c.Env.Name ++ "-" ++ c.App.AppManifest.Name ++ "-app").length
            - 128)) := by
  refine ⟨?_, ?_, ?_⟩
  · unfold StackName
    by_cases h :
        (c.Env.Project ++ "-" ++ c.Env.Name ++ "-" ++ c.App.AppManifest.Name ++ "-app").length
          > 128
    · simp only [if_pos h, string_length_drop]
      omega
    · simp only [if_neg h]
      omega
  · intro h
    unfold StackName
    rw [if_neg (by omega)]
  · intro h
    unfold StackName
    rw [if_pos (by omega)]

set_option maxRecDepth 4000 in
/--
Witness for C2 at concrete inputs: the scenario name is short enough and
returned unchanged, and a 160-character natural name is truncated to its
last 128 characters.
-/
theorem StackName_length_spec_witness :
    (StackName exStack =
      exStack.Env.Project ++ "-" ++ exStack.Env.Name ++ "-"
        ++ exStack.App.AppManifest.Name ++ "-app") ∧
    (StackName exLongStack =
      (exLongStack.Env.Project ++ "-" ++ exLongStack.Env.Name ++ "-"
        ++ exLongStack.App.AppManifest.Name ++ "-app").drop
        ((exLongStack.Env.Project ++ "-" ++ exLongStack.Env.Name ++ "-"
          ++ exLongStack.App.AppManifest.Name ++ "-app").length - 128)) ∧
    (StackName exLongStack).length ≤ 128 :=
  ⟨(StackName_length_spec exStack).2.1 (by decide),
   (StackName_length_spec exLongStack).2.2 (by decide),
   (StackName_length_spec exLongStack).1⟩

/--
C3: For every input, `Parameters` returns exactly ten key/value pairs
with the keys ProjectName, EnvName, AppName, ContainerImage,
ContainerPort, RulePriority, RulePath, TaskCPU, TaskMemory, TaskCount in
that order and the values drawn from the environment record, the
(environment-resolved) manifest and the computed image URL; `Tags`
returns exactly the three (project, environment, application) tags; and
on the §8 scenario the values are ProjectName=demo, EnvName=test,
AppName=frontend, ContainerPort=80, TaskCPU=256, TaskMemory=512,
TaskCount=1.
-/
theorem Parameters_and_Tags_spec (c : LBFargateStackConfig) :
    (Parameters c =
      [ (lbFargateParamProjectNameKey, c.Env.Project),
        (lbFargateParamEnvNameKey, c.Env.Name),
        (lbFargateParamAppNameKey, c.App.AppManifest.Name),
        (lbFargateParamContainerImageKey, (toTemplateParams c).Image.URL),
        (lbFargateParamContainerPortKey, toString c.App.LBFargateConfig.Image.Port),
        (lbFargateRulePriorityKey, toString (1 : Nat)),
        (lbFargateRulePathKey, (EnvConf c.App c.Env.Name).Path),
        (lbFargateTaskCPUKey, toString (EnvConf c.App c.Env.Name).CPU),
        (lbFargateTaskMemoryKey, toString (EnvConf c.App c.Env.Name).Memory),
        (lbFargateTaskCountKey, toString (EnvConf c.App c.Env.Name).Count) ] ∧
      (Parameters c).length = 10 ∧
      Tags c =
        [ (projectTagKey, c.Env.Project),
          (envTagKey, c.Env.Name),
          (appTagKey, c.App.AppManifest.Name) ] ∧
      (Tags c).length = 3) ∧
    Parameters exStack =
      [ ("ProjectName", "demo"), ("EnvName", "test"), ("AppName", "frontend"),
        ("ContainerImage", "123.dkr.ecr.us-east-1.amazonaws.com/demo/test/frontend:latest"),
        ("ContainerPort", "80"), ("RulePriority", "1"), ("RulePath", "frontend"),
        ("TaskCPU", "256"), ("TaskMemory", "512"), ("TaskCount", "1") ] :=
  ⟨⟨rfl, rfl, rfl, rfl⟩, by decide⟩

/--
C4: For every decoded manifest whose variant is not the load-balanced
Fargate manifest, `getTemplates` returns empty template and parameter
strings together with an error naming the unsupported type.
-/
theorem getTemplates_unsupported_type (w : World) (opts : PackageAppOpts) (env : Environment)
    (raw t : String)
    (hread : w.readManifestFile (w.manifestFileName opts.AppName) = .ok raw)
    (hdecode : w.unmarshalApp raw = .ok (.unknown t)) :
    getTemplates w opts env =
      ("", "", some (.msg ("create CloudFormation template for manifest of type " ++ t))) := by
  simp [getTemplates, hread, hdecode]

/-- A world identical to `goodWorld` except that the manifest decodes to
an unsupported variant. -/
def unknownTypeWorld : World :=
  { goodWorld with unmarshalApp := fun _ => .ok (.unknown "*manifest.AppManifest") }

/--
Witness for C4: in a world whose decoder returns an unsupported variant,
`getTemplates` yields empty outputs and the unsupported-type error.
-/
theorem getTemplates_unsupported_type_witness :
    getTemplates unknownTypeWorld exOpts exEnv =
      ("", "",
        some (.msg ("create CloudFormation template for manifest of type "
          ++ "*manifest.AppManifest"))) :=
  getTemplates_unsupported_type unknownTypeWorld exOpts exEnv
    "raw-manifest" "*manifest.AppManifest" rfl rfl

/--
C5: For every template body and parameter structure, if executing the
template fails then `Template` (and likewise `SerializedParameters`)
returns the execution error together with an empty output string — no
partially rendered text is returned.
-/
theorem render_exec_failure_empty (w : World) (c : LBFargateStackConfig)
    (content tpl pcontent ptpl : String) (e e' : Err)
    (hfind : w.findString lbFargateAppTemplatePath = .ok content)
    (hparse : w.parse content = .ok tpl)
    (hexec : w.templateExecute tpl (toTemplateParams c) = .error e)
    (hfindp : w.findString lbFargateAppParamsPath = .ok pcontent)
    (hparsep : w.parse pcontent = .ok ptpl)
    (hexecp : w.templateExecute ptpl (toTemplateParams c) = .error e') :
    Template w c =
      ("", some (.wrapped ("execute CloudFormation template for " ++ c.App.AppManifest.Type') e)) ∧
    SerializedParameters w c =
      ("", some (.wrapped ("execute stack configuration for " ++ c.App.AppManifest.Type') e')) := by
  constructor
  · simp [Template, hfind, hparse, hexec]
  · simp [SerializedParameters, hfindp, hparsep, hexecp]

/-- A world identical to `goodWorld` except that template execution
always fails (as it does when the parameter structure misses a field the
template references). -/
def execFailWorld : World :=
  { goodWorld with
      templateExecute := fun _ _ =>
        .error (.msg "template: map has no entry for key") }

/--
Witness for C5: with an engine whose execution step fails, both render
calls return the wrapped execution error and the empty string.
-/
theorem render_exec_failure_empty_witness :
    Template execFailWorld exStack =
      ("", some (.wrapped ("execute CloudFormation template for " ++ "Load Balanced Web App")
        (.msg "template: map has no entry for key"))) ∧
    SerializedParameters execFailWorld exStack =
      ("", some (.wrapped ("execute stack configuration for " ++ "Load Balanced Web App")
        (.msg "template: map has no entry for key"))) :=
  render_exec_failure_empty execFailWorld exStack
    "template-source" "template-source" "template-source" "template-source"
    (.msg "template: map has no entry for key") (.msg "template: map has no entry for key")
    rfl rfl rfl rfl rfl rfl

/--
C8: `Validate` fails with the no-project error whenever the project
context is empty; when the project is set and an application name was
supplied, it fails with the unknown-application error exactly when that
name is absent from the workspace's application-name list (in particular
it passes when the name is present and no environment is supplied); and
when an environment name was supplied, the environment store's lookup
error is propagated unchanged.
-/
theorem validate_error_cases (w : World) (opts : PackageAppOpts) :
    (opts.projectName = "" → Validate w opts = (some .noProjectInWorkspace, 0)) ∧
    (opts.projectName ≠ "" → opts.AppName ≠ "" → ∀ names, w.appNames = .ok names →
      (contains opts.AppName names = false →
        (Validate w opts).1 =
          some (.msg ("application '" ++ opts.AppName ++ "' does not exist in the workspace"))) ∧
      (contains opts.AppName names = true → opts.EnvName = "" → Validate w opts = (none, 0))) ∧
    (opts.projectName ≠ "" → opts.EnvName ≠ "" →
      (opts.AppName = "" ∨ ∃ names, w.appNames = .ok names ∧ contains opts.AppName names = true) →
      ∀ e, w.getEnvironment opts.projectName opts.EnvName = .error e →
        Validate w opts = (some e, 1)) := by
  refine ⟨?_, ?_, ?_⟩
  · intro hp
    simp [Validate, hp]
  · intro hp happ names hnames
    constructor
    · intro habsent
      simp [Validate, hp, happ, hnames, habsent]
    · intro hfound henv
      simp [Validate, hp, happ, hnames, hfound, henv]
  · intro hp henv happ e hstore
    rcases happ with happ | ⟨names, hnames, hfound⟩
    · simp [Validate, hp, happ, henv, hstore]
    · by_cases happ' : opts.AppName = ""
      · simp [Validate, hp, happ', henv, hstore]
      · simp [Validate, hp, happ', hnames, hfound, henv, hstore]

/-- A world identical to `goodWorld` except that the environment lookup
fails. -/
def envFailWorld : World :=
  { goodWorld with
      getEnvironment := fun _ _ =>
        .error (.msg "couldn't find environment test in project demo") }

/--
Witness for C8, one concrete run per validation rule: an empty project
is rejected; an application name missing from the workspace list is
rejected; the scenario options validate cleanly without an environment;
and a failing environment lookup surfaces the store's error unchanged.
-/
theorem validate_error_cases_witness :
    Validate goodWorld { exOpts with projectName := "" } = (some .noProjectInWorkspace, 0) ∧
    (Validate goodWorld { exOpts with AppName := "backend" }).1 =
      some (.msg ("application '" ++ "backend" ++ "' does not exist in the workspace")) ∧
    Validate goodWorld { exOpts with EnvName := "" } = (none, 0) ∧
    Validate envFailWorld exOpts =
      (some (.msg "couldn't find environment test in project demo"), 1) :=
  ⟨(validate_error_cases goodWorld { exOpts with projectName := "" }).1 rfl,
   ((validate_error_cases goodWorld { exOpts with AppName := "backend" }).2.1
      (by decide) (by decide) ["frontend"] rfl).1 (by decide),
   ((validate_error_cases goodWorld { exOpts with EnvName := "" }).2.1
      (by decide) (by decide) ["frontend"] rfl).2 (by decide) rfl,
   (validate_error_cases envFailWorld exOpts).2.2 (by decide) (by decide)
      (Or.inr ⟨["frontend"], rfl, by decide⟩)
      (.msg "couldn't find environment test in project demo") rfl⟩

/-- `Execute` performs exactly one environment-store lookup, on every
path. -/
theorem Execute_envCalls (w : World) (opts : PackageAppOpts) :
    (Execute w opts).envCalls = 1 := by
  unfold Execute
  rcases w.getEnvironment opts.projectName opts.EnvName with e | env
  · rfl
  · rcases hsf : (if opts.OutputDir ≠ "" then setFileWriters w opts else (none, opts, [], []))
      with ⟨serr, opts', dirs, files⟩
    rcases serr with _ | e
    · rcases hgt : getTemplates w opts' env with ⟨tpl, params, perr⟩
      rcases perr with _ | e
      · rcases hw : w.write opts'.templateWriter tpl with _ | e <;> simp [hsf, hgt, hw]
      · simp [hsf, hgt]
    · simp [hsf]

/-- A successful `Validate` with an environment name supplied performs
exactly one environment-store lookup. -/
theorem Validate_envCalls (w : World) (opts : PackageAppOpts)
    (henv : opts.EnvName ≠ "") (hok : (Validate w opts).1 = none) :
    (Validate w opts).2 = 1 := by
  by_cases hp : opts.projectName = ""
  · simp [Validate, hp] at hok
  · by_cases ha : opts.AppName = ""
    · rcases hge : w.getEnvironment opts.projectName opts.EnvName with e | env
      · simp [Validate, hp, ha, henv, hge] at hok
      · simp [Validate, hp, ha, henv, hge]
    · rcases hn : w.appNames with e | names
      · simp [Validate, hp, ha, hn] at hok
      · by_cases hc : contains opts.AppName names
        · rcases hge : w.getEnvironment opts.projectName opts.EnvName with e | env
          · simp [Validate, hp, ha, hn, hc, henv, hge] at hok
          · simp [Validate, hp, ha, hn, hc, henv, hge]
        · simp [Validate, hp, ha, hn, hc] at hok

/--
C6 counterexample: on the §8 scenario run (environment name `test`
supplied, every collaborator succeeding), the `Validate`-then-`Execute`
sequence performs two `getEnvironment` lookups, not one.
-/
theorem getEnvironment_called_twice_cex :
    exOpts.EnvName ≠ "" ∧
    (runPackage goodWorld exOpts).1 = none ∧
    (runPackage goodWorld exOpts).2 = 2 ∧
    ¬ (runPackage goodWorld exOpts).2 = 1 :=
  ⟨by decide, rfl, rfl, by decide⟩

/--
C6 (amended): during one packaging run in which an environment name is
supplied and validation passes, the `getEnvironment` lookup is invoked
exactly twice — once by `Validate` and once more by `Execute`.
-/
theorem getEnvironment_calls_per_run (w : World) (opts : PackageAppOpts)
    (henv : opts.EnvName ≠ "") (hok : (Validate w opts).1 = none) :
    (runPackage w opts).2 = 2 := by
  have h1 : (Validate w opts).2 = 1 := Validate_envCalls w opts henv hok
  have h2 : (Execute w opts).envCalls = 1 := Execute_envCalls w opts
  unfold runPackage
  rcases hV : Validate w opts with ⟨verr, n⟩
  rw [hV] at hok h1
  simp only at hok h1
  subst hok
  simp [h1, h2]

/--
Witness for the amended C6 on the scenario run: two lookups happen.
-/
theorem getEnvironment_calls_per_run_witness :
    (runPackage goodWorld exOpts).2 = 2 :=
  getEnvironment_calls_per_run goodWorld exOpts (by decide) rfl

/-- A successful `setFileWriters` creates exactly the output directory,
the `.stack.yml` file and the `.params.json` file, and redirects the two
writers to those files. -/
theorem setFileWriters_ok (w : World) (opts : PackageAppOpts)
    (h : (setFileWriters w opts).1 = none) :
    setFileWriters w opts =
      (none,
       { opts with
           templateWriter := .file (filepathJoin opts.OutputDir (opts.AppName ++ ".stack.yml"))
           paramsWriter :=
             .file (filepathJoin opts.OutputDir
               (opts.AppName ++ "-" ++ opts.EnvName ++ ".params.json")) },
       [opts.OutputDir],
       [filepathJoin opts.OutputDir (opts.AppName ++ ".stack.yml"),
        filepathJoin opts.OutputDir (opts.AppName ++ "-" ++ opts.EnvName ++ ".params.json")]) := by
  unfold setFileWriters at h ⊢
  rcases hm : w.mkdirAll opts.OutputDir with _ | e
  · rcases hc1 : w.create (filepathJoin opts.OutputDir (opts.AppName ++ ".stack.yml"))
      with e | u
    · simp [hm, hc1] at h
    · rcases hc2 : w.create (filepathJoin opts.OutputDir
          (opts.AppName ++ "-" ++ opts.EnvName ++ ".params.json")) with e | u'
      · simp [hm, hc1, hc2] at h
      · simp [hm, hc1, hc2]
  · simp [hm] at h

/--
C7: When an output directory is requested and `Execute` succeeds, it
creates that directory and exactly the two files
`{app}.stack.yml` and `{app}-{env}.params.json` inside it, and no
others; when no output directory is requested, nothing is created and
the two writes go to the options' template and parameter sinks, which
`NewPackageAppOpts` defaults to standard output and the discard sink.
-/
theorem execute_output_layout (w : World) (opts : PackageAppOpts) :
    (opts.OutputDir ≠ "" → (Execute w opts).err = none →
      (Execute w opts).dirsMade = [opts.OutputDir] ∧
      (Execute w opts).filesCreated =
        [filepathJoin opts.OutputDir (opts.AppName ++ ".stack.yml"),
         filepathJoin opts.OutputDir (opts.AppName ++ "-" ++ opts.EnvName ++ ".params.json")]) ∧
    (opts.OutputDir = "" →
      (Execute w opts).dirsMade = [] ∧ (Execute w opts).filesCreated = [] ∧
      ((Execute w opts).err = none →
        ∃ tpl params,
          (Execute w opts).writes =
            [(opts.templateWriter, tpl), (opts.paramsWriter, params)])) ∧
    (∀ gitShortHead projectName,
      (NewPackageAppOpts gitShortHead projectName).templateWriter = .stdout ∧
      (NewPackageAppOpts gitShortHead projectName).paramsWriter = .discard) := by
  refine ⟨?_, ?_, ?_⟩
  · intro hdir hsuc
    rcases hge : w.getEnvironment opts.projectName opts.EnvName with e | env
    · simp [Execute, hge] at hsuc
    · rcases hsf : setFileWriters w opts with ⟨serr, opts', dirs, files⟩
      rcases serr with _ | e
      · have hok := setFileWriters_ok w opts (by rw [hsf])
        rw [hsf] at hok
        simp only [Prod.mk.injEq, true_and] at hok
        obtain ⟨-, hdirs, hfiles⟩ := hok
        rcases hgt : getTemplates w opts' env with ⟨tpl, params, perr⟩
        rcases perr with _ | e
        · rcases hw : w.write opts'.templateWriter tpl with _ | e
          · constructor <;> simp [Execute, hge, hdir, hsf, hgt, hw, hdirs, hfiles]
          · simp [Execute, hge, hdir, hsf, hgt, hw] at hsuc
        · simp [Execute, hge, hdir, hsf, hgt] at hsuc
      · simp [Execute, hge, hdir, hsf] at hsuc
  · intro hdir
    rcases hge : w.getEnvironment opts.projectName opts.EnvName with e | env
    · simp [Execute, hge]
    · rcases hgt : getTemplates w opts env with ⟨tpl, params, perr⟩
      rcases perr with _ | e
      · rcases hw : w.write opts.templateWriter tpl with _ | e
        · refine ⟨by simp [Execute, hge, hdir, hgt, hw], by simp [Execute, hge, hdir, hgt, hw], ?_⟩
          intro _
          exact ⟨tpl, params, by simp [Execute, hge, hdir, hgt, hw]⟩
        · simp [Execute, hge, hdir, hgt, hw]
      · simp [Execute, hge, hdir, hgt]
  · intro gitShortHead projectName
    cases gitShortHead <;> exact ⟨rfl, rfl⟩

/-- Options of the §8 output-directory scenario: `--output-dir ./out`. -/
def outOpts : PackageAppOpts := { exOpts with OutputDir := "./out" }

/--
Witness for C7: the `./out` scenario creates exactly
`./out/frontend.stack.yml` and `./out/frontend-test.params.json`, and
the no-directory scenario creates nothing; the default options write to
stdout and the discard sink.
-/
theorem execute_output_layout_witness :
    ((Execute goodWorld outOpts).dirsMade = [outOpts.OutputDir] ∧
      (Execute goodWorld outOpts).filesCreated =
        [filepathJoin outOpts.OutputDir (outOpts.AppName ++ ".stack.yml"),
         filepathJoin outOpts.OutputDir
           (outOpts.AppName ++ "-" ++ outOpts.EnvName ++ ".params.json")]) ∧
    ((Execute goodWorld exOpts).dirsMade = [] ∧ (Execute goodWorld exOpts).filesCreated = [] ∧
      ((Execute goodWorld exOpts).err = none →
        ∃ tpl params,
          (Execute goodWorld exOpts).writes =
            [(exOpts.templateWriter, tpl), (exOpts.paramsWriter, params)])) ∧
    ((NewPackageAppOpts (.error (.msg "git failed")) "demo").templateWriter = .stdout ∧
      (NewPackageAppOpts (.error (.msg "git failed")) "demo").paramsWriter = .discard) :=
  ⟨(execute_output_layout goodWorld outOpts).1 (by decide) rfl,
   (execute_output_layout goodWorld exOpts).2.1 rfl,
   (execute_output_layout goodWorld exOpts).2.2 (.error (.msg "git failed")) "demo"⟩

/--
C10: In `Execute`, the parameter document is written to the parameters
sink only after the template has been successfully written to the
template sink: a failing environment lookup, sink setup, render, or
template write makes `Execute` return that error with no write to the
parameters sink; only after a successful template write is the parameter
document written.
-/
theorem execute_write_ordering (w : World) (opts : PackageAppOpts) :
    (∀ e, w.getEnvironment opts.projectName opts.EnvName = .error e →
      Execute w opts = ⟨some e, 1, [], [], []⟩) ∧
    (∀ env, w.getEnvironment opts.projectName opts.EnvName = .ok env → opts.OutputDir ≠ "" →
      ∀ e opts' dirs files, setFileWriters w opts = (some e, opts', dirs, files) →
        (Execute w opts).err = some e ∧ (Execute w opts).writes = []) ∧
    (∀ env opts' dirs files, w.getEnvironment opts.projectName opts.EnvName = .ok env →
      ((opts.OutputDir ≠ "" ∧ setFileWriters w opts = (none, opts', dirs, files)) ∨
        (opts.OutputDir = "" ∧ opts' = opts)) →
      (∀ tpl params e, getTemplates w opts' env = (tpl, params, some e) →
        (Execute w opts).err = some e ∧ (Execute w opts).writes = []) ∧
      (∀ tpl params, getTemplates w opts' env = (tpl, params, none) →
        (∀ e, w.write opts'.templateWriter tpl = some e →
          (Execute w opts).err = some e ∧
          (Execute w opts).writes = [(opts'.templateWriter, tpl)]) ∧
        (w.write opts'.templateWriter tpl = none →
          (Execute w opts).err = w.write opts'.paramsWriter params ∧
          (Execute w opts).writes =
            [(opts'.templateWriter, tpl), (opts'.paramsWriter, params)]))) := by
  refine ⟨?_, ?_, ?_⟩
  · intro e hge
    simp [Execute, hge]
  · intro env hge hdir e opts' dirs files hsf
    constructor <;> simp [Execute, hge, hdir, hsf]
  · intro env opts' dirs files hge hcase
    rcases hcase with ⟨hdir, hsf⟩ | ⟨hdir, rfl⟩
    · refine ⟨?_, ?_⟩
      · intro tpl params e hgt
        constructor <;> simp [Execute, hge, hdir, hsf, hgt]
      · intro tpl params hgt
        constructor
        · intro e hw
          constructor <;> simp [Execute, hge, hdir, hsf, hgt, hw]
        · intro hw
          constructor <;> simp [Execute, hge, hdir, hsf, hgt, hw]
    · refine ⟨?_, ?_⟩
      · intro tpl params e hgt
        constructor <;> simp [Execute, hge, hdir, hgt]
      · intro tpl params hgt
        constructor
        · intro e hw
          constructor <;> simp [Execute, hge, hdir, hgt, hw]
        · intro hw
          constructor <;> simp [Execute, hge, hdir, hgt, hw]

/-- A world identical to `goodWorld` except that writing to standard
output fails. -/
def writeFailWorld : World :=
  { goodWorld with
      write := fun s _ => if s = Sink.stdout then some (.msg "broken pipe") else none }

/--
Witness for C10: a failing environment lookup yields that error and an
empty write log, and a failing template write yields that error with the
single (template-sink) write attempt and no write to the parameters
sink.
-/
theorem execute_write_ordering_witness :
    Execute envFailWorld exOpts =
      ⟨some (.msg "couldn't find environment test in project demo"), 1, [], [], []⟩ ∧
    ((Execute writeFailWorld exOpts).err = some (.msg "broken pipe") ∧
      (Execute writeFailWorld exOpts).writes = [(Sink.stdout, "rendered")]) :=
  ⟨(execute_write_ordering envFailWorld exOpts).1
      (.msg "couldn't find environment test in project demo") rfl,
   (((execute_write_ordering writeFailWorld exOpts).2.2 exEnv exOpts [] []
      rfl (Or.inr ⟨rfl, rfl⟩)).2 "rendered" "rendered" rfl).1 (.msg "broken pipe") rfl⟩

end AppPackage

